import Mathlib

/-!
Verification of the Wireframe graph-execution core against its source.

The definitions below are shallow embeddings of the TypeScript source:
  - `src/lib/security.ts` (rate limiting, error sanitisation, key hashing,
    header sanitisation, secret resolution),
  - the LLM dispatch route (`generateWithGoogle`, `generateWithOpenAI`, `POST`),
  - the workflow-context builder (`buildWorkflowContext`, `generateNodeTitle`).
JavaScript strings are Lean `String`s (for `hashKeyForLogging`, `List Char`,
since the claim is about the characters of the key); `process.env` and the
network are explicit function parameters; JS truthiness of strings
(`""` is falsy) is modelled by `jsTruthy`/`jsOrOpt`.
-/

/-- JS truthiness for an optional string: `undefined`/`null`/`""` are falsy. -/
def jsTruthy : Option String → Option String
  | none => none
  | some s => if s = "" then none else some s

/-- JS `a || b` on optional strings: `a` when truthy, else `b`. -/
def jsOrOpt (a b : Option String) : Option String :=
  match jsTruthy a with
  | some s => some s
  | none => b

/-- JS `a || d` with a string default. -/
def jsOrDefault (a : Option String) (d : String) : String :=
  match jsTruthy a with
  | some s => s
  | none => d

/-- JS `s.includes(sub)`: `sub` occurs as a contiguous substring of `s`. -/
def strIncludes (s sub : String) : Bool :=
  (s.toList.tails).any (fun t => sub.toList.isPrefixOf t)

/-! ## `src/lib/security.ts` -/

/-- One entry of the in-memory rate-limit store (`{ count, resetTime }`). -/
structure RateLimitEntry where
  count : Nat
  resetTime : Nat
deriving DecidableEq, Repr

/-- The value returned by `checkRateLimit`. -/
structure RateLimitResult where
  allowed : Bool
  remaining : Nat
  resetTime : Nat
deriving DecidableEq, Repr

/-- The rate-limit store `Map<string, {count, resetTime}>`, as a function. -/
def RateLimitStore := String → Option RateLimitEntry

/-- `checkRateLimit(identifier, limit, windowMs)` from `security.ts`:
reads the store entry for `identifier`; inside an unexpired window it
increments the count and keeps the window, otherwise it restarts at 1 with a
fresh window; writes the entry back and returns
`{allowed := count ≤ limit, remaining := max 0 (limit - count), resetTime}`.
`now` stands for `Date.now()`. -/
def checkRateLimit (identifier : String) (limit windowMs now : Nat)
    (store : RateLimitStore) : RateLimitResult × RateLimitStore :=
  let entry := store identifier
  let cr : Nat × Nat :=
    match entry with
    | some e => if now < e.resetTime then (e.count + 1, e.resetTime) else (1, now + windowMs)
    | none => (1, now + windowMs)
  let count := cr.1
  let resetTime := cr.2
  let store2 : RateLimitStore := fun k =>
    if k = identifier then some ⟨count, resetTime⟩ else store k
  (⟨decide (count ≤ limit), limit - count, resetTime⟩, store2)

/-- Runs `checkRateLimit` once per element of `times` (the successive values
of `Date.now()`), for one identifier, threading the store; returns the list
of results and the final store. -/
def rlRun (identifier : String) (limit windowMs : Nat) :
    List Nat → RateLimitStore → List RateLimitResult × RateLimitStore
  | [], store => ([], store)
  | t :: ts, store =>
    let r := checkRateLimit identifier limit windowMs t store
    let rest := rlRun identifier limit windowMs ts r.2
    (r.1 :: rest.1, rest.2)

/-- `RATE_LIMIT_WINDOW_MS = 60 * 1000`. -/
def RATE_LIMIT_WINDOW_MS : Nat := 60 * 1000

/-- `VALIDATE_LIMIT = 5` in `validate-api-key/route.ts`. -/
def VALIDATE_LIMIT : Nat := 5

/-- A JSON API response: HTTP status and the `error`/`text` body fields. -/
structure ApiResponse where
  status : Nat
  error : Option String
  text : Option String
deriving DecidableEq, Repr

/-- `createRateLimitResponse` from `security.ts`: a 429 response with the
generic "Too many requests" body. -/
def createRateLimitResponse : ApiResponse :=
  ⟨429, some "Too many requests. Please try again later.", none⟩

/-- The rate-limit gate of `validate-api-key`'s `POST`: when `checkRateLimit`
denies, the endpoint returns `createRateLimitResponse`; otherwise it falls
through (modelled as `none`). -/
def validateKeyRateGate (r : RateLimitResult) : Option ApiResponse :=
  if r.allowed then none else some createRateLimitResponse

/-- `sanitizeErrorMessage(message, isProduction)` from `security.ts`. -/
def sanitizeErrorMessage (message : String) (isProduction : Bool) : String :=
  if !isProduction then message
  else if strIncludes message "API_KEY" || strIncludes message "GEMINI_API_KEY"
      || strIncludes message "OPENAI_API_KEY" then
    "Configuration incomplete. Contact administrator."
  else if strIncludes message "401" || strIncludes message "403"
      || strIncludes message "Unauthorized" then
    "Authentication failed. Please verify your configuration."
  else if strIncludes message "429" || strIncludes message "rate limit" then
    "Too many requests. Please try again later."
  else if strIncludes message "fetch" || strIncludes message "network"
      || strIncludes message "ECONNREFUSED" then
    "Service unavailable. Please try again later."
  else
    "Operation failed. Please try again later."

/-- `hashKeyForLogging(key)` from `security.ts`, on the key's characters:
keys shorter than 12 characters (including the empty key, which is falsy)
give `"***"`; otherwise `key.substring(0,8) + "..." + key.substring(len-4)`. -/
def hashKeyForLogging (key : List Char) : List Char :=
  if key.length < 12 then "***".toList
  else key.take 8 ++ "...".toList ++ key.drop (key.length - 4)

/-- JS `s.toLowerCase()`: lower-cases each character. -/
def toLowerString (s : String) : String := ⟨s.data.map Char.toLower⟩

/-- JS `s.toUpperCase()`: upper-cases each character. -/
def toUpperString (s : String) : String := ⟨s.data.map Char.toUpper⟩

/-- `SENSITIVE_HEADERS` from `security.ts`. -/
def SENSITIVE_HEADERS : List String :=
  ["authorization", "x-gemini-api-key", "x-openai-api-key", "x-claude-api-key",
   "x-kimi-api-key", "x-replicate-api-key", "x-fal-api-key", "x-kling-api-key"]

/-- `sanitizeHeadersForLogging(headers)` from `security.ts`: the `for` loop
over `headers.entries()` accumulating every entry whose lower-cased name is
not in `SENSITIVE_HEADERS`. -/
def sanitizeHeadersForLogging (headers : List (String × String)) :
    List (String × String) :=
  headers.foldl
    (fun safe kv =>
      if toLowerString kv.1 ∈ SENSITIVE_HEADERS then safe else safe ++ [kv])
    []

/-! ## Secret resolution (`getProviderSecret`) -/

/-- `PROVIDER_ENV_MAP` from the secrets module. -/
def PROVIDER_ENV_MAP : List (String × String) :=
  [("gemini", "GEMINI_API_KEY"), ("openai", "OPENAI_API_KEY"),
   ("claude", "CLAUDE_API_KEY"), ("kimi", "KIMI_API_KEY"),
   ("kimi_url", "KIMI_API_URL"), ("kling", "KLING_API_KEY")]

/-- Entry of the in-memory secret cache (`{ value, expiresAt }`). -/
structure SecretCacheEntry where
  value : String
  expiresAt : Nat
deriving DecidableEq, Repr

/-- `DEFAULT_TTL_MS = 5 * 60 * 1000`. -/
def DEFAULT_TTL_MS : Nat := 5 * 60 * 1000

/-- `getProviderSecret(providerId)` from the secrets module. `env` is
`process.env`; `aws` is the AWS Secrets Manager lookup (the `GetSecretValue`
call together with the JSON-field extraction that follows it, as one
key-value oracle); `cache`/`now` model the in-memory TTL cache. Returns the
resolved secret (`Except` for the thrown `gcp`/`vault` branches) and the
updated cache. Precedence as in the source: provider environment variable
first, then the `SECRET_NAME_<PROVIDER>` indirection when
`SECRET_PROVIDER` is `env` (the default), then the cached or fresh AWS
store lookup. -/
def getProviderSecret (providerId : String) (env aws : String → Option String)
    (cache : String → Option SecretCacheEntry) (now : Nat) :
    Except String (Option String) × (String → Option SecretCacheEntry) :=
  let envKey : Option String :=
    (PROVIDER_ENV_MAP.find? (fun p => p.1 = providerId)).map (·.2)
  match envKey with
  | some ek =>
    match jsTruthy (env ek) with
    | some v => (.ok (some v), cache)
    | none => getProviderSecretRest providerId (some ek) env aws cache now
  | none => getProviderSecretRest providerId none env aws cache now
where
  /-- The part of `getProviderSecret` after the first environment check. -/
  getProviderSecretRest (providerId : String) (_envKey : Option String)
      (env aws : String → Option String)
      (cache : String → Option SecretCacheEntry) (now : Nat) :
      Except String (Option String) × (String → Option SecretCacheEntry) :=
    let secretNameEnv := env ("SECRET_NAME_" ++ toUpperString providerId)
    let secretProvider := jsOrDefault (env "SECRET_PROVIDER") "env"
    if secretProvider = "env" then
      (.ok (match jsTruthy secretNameEnv with
            | some s => env s
            | none => none), cache)
    else
      let cacheKey := secretProvider ++ ":" ++ providerId
      match cache cacheKey with
      | some e =>
        if now < e.expiresAt then (.ok (some e.value), cache)
        else getProviderSecretFetch providerId secretProvider secretNameEnv
              cacheKey env aws cache now
      | none => getProviderSecretFetch providerId secretProvider secretNameEnv
              cacheKey env aws cache now
  /-- The cache-miss tail of `getProviderSecret`: AWS fetch or the
  unimplemented `gcp`/`vault` branches. -/
  getProviderSecretFetch (providerId secretProvider : String)
      (secretNameEnv : Option String) (cacheKey : String)
      (env aws : String → Option String)
      (cache : String → Option SecretCacheEntry) (now : Nat) :
      Except String (Option String) × (String → Option SecretCacheEntry) :=
    if secretProvider = "aws" then
      let secretName :=
        jsOrDefault secretNameEnv (jsOrDefault (env "SECRET_NAME") providerId)
      match aws secretName with
      | none => (.ok none, cache)
      | some s =>
        (.ok (some s),
         fun k => if k = cacheKey then some ⟨s, now + DEFAULT_TTL_MS⟩ else cache k)
    else if secretProvider = "gcp" ∨ secretProvider = "vault" then
      (.error (secretProvider ++ " secret retrieval not implemented in this build"),
       cache)
    else
      (.ok none, cache)

/-! ## LLM dispatch route (`generateWithGoogle`, `generateWithOpenAI`, `POST`) -/

/-- A backend HTTP response as the adapters read it: `ok`/`status` from
`fetch`, `errMessage` for `error.error?.message` of the parsed error body,
`text` for the extracted completion text (`response.text` for Google,
`choices[0].message.content` for OpenAI). -/
structure FetchResponse where
  ok : Bool
  status : Nat
  errMessage : Option String
  text : Option String
deriving DecidableEq, Repr

/-- `generateWithGoogle` from the LLM route, restricted to its
caller-observable behaviour: credential resolution
(`userApiKey || process.env.GEMINI_API_KEY`, missing key throws before any
backend call), one `generateContent` call with the resolved key, and the
"No text" error when the response has no text. The second component lists
the credentials of the backend calls made, in order. -/
def generateWithGoogle (userApiKey : Option String)
    (env : String → Option String) (backend : String → Option String) :
    Except String String × List String :=
  match jsTruthy (jsOrOpt userApiKey (env "GEMINI_API_KEY")) with
  | none =>
    (.error "GEMINI_API_KEY not configured. Add it to .env.local or configure in Settings.",
     [])
  | some apiKey =>
    match backend apiKey with
    | some t => (.ok t, [apiKey])
    | none => (.error "No text in Google AI response", [apiKey])

/-- `generateWithOpenAI` from the LLM route, restricted to its
caller-observable behaviour: credential resolution
(`userApiKey || process.env.OPENAI_API_KEY`, missing key throws before any
backend call), a single `fetch` of the chat-completions endpoint (the
`backend` oracle, indexed by attempt number — the source performs no
retry), the error path
`throw new Error(error.error?.message || "OpenAI API error: " + status)`
on a non-ok response, and text extraction. The second component counts the
backend calls made. -/
def generateWithOpenAI (userApiKey : Option String)
    (env : String → Option String) (backend : Nat → FetchResponse) :
    Except String String × Nat :=
  match jsTruthy (jsOrOpt userApiKey (env "OPENAI_API_KEY")) with
  | none =>
    (.error "OPENAI_API_KEY not configured. Add it to .env.local or configure in Settings.",
     0)
  | some _ =>
    let response := backend 0
    if !response.ok then
      (.error (jsOrDefault response.errMessage
                ("OpenAI API error: " ++ toString response.status)), 1)
    else
      match response.text with
      | some t => (.ok t, 1)
      | none => (.error "No text in OpenAI response", 1)

/-- The `catch` branch of the LLM route's `POST`: an error whose message
contains `"429"` becomes the generic 429 response; every other error's
`message` is returned verbatim in the 500 response body. -/
def llmPOSTCatch (message : String) : ApiResponse :=
  if strIncludes message "429" then
    ⟨429, some "Rate limit reached. Please wait and try again.", none⟩
  else
    ⟨500, some message, none⟩

/-- The LLM route's `POST` for `provider = "openai"`: dispatches through
`generateWithOpenAI` and wraps the outcome as the route does (success body
on `.ok`, the `catch` branch on a thrown error). -/
def llmPOSTOpenAI (userApiKey : Option String)
    (env : String → Option String) (backend : Nat → FetchResponse) :
    ApiResponse :=
  match (generateWithOpenAI userApiKey env backend).1 with
  | .ok t => ⟨200, none, some t⟩
  | .error e => llmPOSTCatch e

/-! ## Workflow context (`buildWorkflowContext`, `generateNodeTitle`) -/

/-- The model selected on a generation node (`selectedModel.displayName` is
all the context builder reads from it). -/
structure SelectedModel where
  displayName : String
deriving DecidableEq, Repr

/-- `node.data`: the fields the context builder reads (`customTitle`,
`selectedModel`), together with representative payload fields that the
builder must not read — base64 image data, prompt-history arrays and
internal node state. -/
structure NodeData where
  customTitle : Option String
  selectedModel : Option SelectedModel
  imageData : Option String
  history : List String
  internalState : Option String
deriving DecidableEq, Repr

/-- A workflow node: `id`, `type` (the node-type string, e.g.
`"nanoBanana"`, `"generateVideo"`, `"llmGenerate"`) and its `data`. -/
structure WorkflowNode where
  id : String
  type : String
  data : NodeData
deriving DecidableEq, Repr

/-- A workflow edge: `source`, `target` node ids and the source handle. -/
structure WorkflowEdge where
  id : String
  source : String
  target : String
  sourceHandle : Option String
deriving DecidableEq, Repr

/-- One node entry of the `WorkflowContext` (`{id, type, title, model?}`;
an absent `model` field is `none`). -/
structure ContextNode where
  id : String
  type : String
  title : String
  model : Option String
deriving DecidableEq, Repr

/-- One connection entry of the `WorkflowContext` (`{from, to, type}`). -/
structure ContextConnection where
  from_ : String
  to_ : String
  type : String
deriving DecidableEq, Repr

/-- The `WorkflowContext` returned by `buildWorkflowContext`. -/
structure WorkflowContext where
  nodeCount : Nat
  nodes : List ContextNode
  connections : List ContextConnection
  isEmpty : Bool
deriving DecidableEq, Repr

/-- `generateNodeTitle(type)` from the context builder: the fixed
type-to-title table with the type string itself as fallback. -/
def generateNodeTitle (type : String) : String :=
  if type = "imageInput" then "Image Input"
  else if type = "annotation" then "Annotation"
  else if type = "prompt" then "Prompt"
  else if type = "nanoBanana" then "Generate Image"
  else if type = "generateVideo" then "Generate Video"
  else if type = "llmGenerate" then "LLM Generate"
  else if type = "splitGrid" then "Split Grid"
  else if type = "output" then "Output"
  else type

/-- The per-node callback of `buildWorkflowContext`'s `nodes.map`:
`title` is `customTitle || generateNodeTitle(type)`; for `nanoBanana` and
`generateVideo` nodes `model` is `selectedModel?.displayName`, spread into
the record only when truthy (`...(model && { model })`). -/
def nodeSummary (node : WorkflowNode) : ContextNode :=
  let title := jsOrDefault node.data.customTitle (generateNodeTitle node.type)
  let model : Option String :=
    if node.type = "nanoBanana" ∨ node.type = "generateVideo" then
      node.data.selectedModel.map (·.displayName)
    else none
  { id := node.id, type := node.type, title := title,
    model := jsTruthy model }

/-- The per-edge callback of `buildWorkflowContext`'s `edges.map`:
`{from: source, to: target, type: sourceHandle || "unknown"}`. -/
def connectionSummary (edge : WorkflowEdge) : ContextConnection :=
  { from_ := edge.source, to_ := edge.target,
    type := jsOrDefault edge.sourceHandle "unknown" }

/-- `buildWorkflowContext(nodes, edges)` from the context builder: maps each
node to `{id, type, title, model?}` via `nodeSummary` and each edge to
`{from, to, type}` via `connectionSummary`; `nodeCount` and `isEmpty`
summarise the node list. -/
def buildWorkflowContext (nodes : List WorkflowNode) (edges : List WorkflowEdge) :
    WorkflowContext :=
  let isEmpty := nodes.length = 0
  let nodeSummaries := nodes.map nodeSummary
  let connections := edges.map connectionSummary
  { nodeCount := nodes.length, nodes := nodeSummaries,
    connections := connections, isEmpty := isEmpty }

/-! ## Subgraph extraction (`extractSubgraph`) -/

/-- A boundary connection of a scoped subgraph. -/
structure BoundaryConnection where
  direction : String
  selectedNodeId : String
  otherNodeId : String
  handleType : String
deriving DecidableEq, Repr

/-- The summary of the unselected rest of the graph. -/
structure RestSummary where
  nodeCount : Nat
  typeBreakdown : List (String × Nat)
  boundaryConnections : List BoundaryConnection
deriving DecidableEq, Repr

/-- The result of `extractSubgraph`. -/
structure SubgraphResult where
  selectedNodes : List WorkflowNode
  selectedEdges : List WorkflowEdge
  restSummary : Option RestSummary
  isScoped : Bool
deriving DecidableEq, Repr

/-- Modelled from the spec: the body of `extractSubgraph` in the source is a
stub (`throw new Error("Not implemented")`), so the behaviour is taken from
§4.4 Contract 2 of the specification. With an empty selection the whole
graph is returned unscoped (`isScoped = false`, `restSummary = null`).
Otherwise `selectedNodes`/`selectedEdges` are the induced subgraph over the
selection; `restSummary` aggregates the complement as a node count, a
per-type breakdown and, for every edge crossing the selection boundary, a
`BoundaryConnection` with its direction relative to the selection, the
selected endpoint, the unselected endpoint and the handle kind. -/
def extractSubgraph (nodes : List WorkflowNode) (edges : List WorkflowEdge)
    (selectedNodeIds : List String) : SubgraphResult :=
  if selectedNodeIds.isEmpty then
    { selectedNodes := nodes, selectedEdges := edges,
      restSummary := none, isScoped := false }
  else
    let sel : String → Bool := fun id => selectedNodeIds.contains id
    let selectedNodes := nodes.filter (fun n => sel n.id)
    let selectedEdges := edges.filter (fun e => sel e.source && sel e.target)
    let restNodes := nodes.filter (fun n => !sel n.id)
    let restTypes := (restNodes.map (·.type)).dedup
    let typeBreakdown := restTypes.map (fun t =>
      (t, (restNodes.filter (fun n => n.type = t)).length))
    let boundaryConnections := edges.filterMap (fun e =>
      if sel e.source && !sel e.target then
        some { direction := "outgoing", selectedNodeId := e.source,
               otherNodeId := e.target,
               handleType := jsOrDefault e.sourceHandle "unknown" : BoundaryConnection }
      else if !sel e.source && sel e.target then
        some { direction := "incoming", selectedNodeId := e.target,
               otherNodeId := e.source,
               handleType := jsOrDefault e.sourceHandle "unknown" : BoundaryConnection }
      else none)
    { selectedNodes := selectedNodes, selectedEdges := selectedEdges,
      restSummary := some { nodeCount := restNodes.length,
                            typeBreakdown := typeBreakdown,
                            boundaryConnections := boundaryConnections },
      isScoped := true }

/-- A demonstration workflow for the subgraph extractor: two nodes and one
edge between them. -/
def demoWfNodes : List WorkflowNode :=
  [⟨"a", "prompt", ⟨none, none, none, [], none⟩⟩,
   ⟨"b", "output", ⟨none, none, none, [], none⟩⟩]

/-- The demonstration workflow's edge list. -/
def demoWfEdges : List WorkflowEdge := [⟨"e1", "a", "b", some "text"⟩]

/-! ## Execution scheduler (spec-modelled) -/

/-- Modelled from the spec: no Execution Scheduler code exists under the
source tree, so the per-node state machine is taken from §3 of the
specification. -/
inductive ExecutionState where
  | Pending
  | Ready
  | Running
  | Succeeded
  | Failed
  | Blocked
  | Skipped
deriving DecidableEq, Repr

/-- Terminal states per §3: `Succeeded`, `Failed`, `Blocked`, `Skipped`. -/
def ExecutionState.isTerminal : ExecutionState → Bool
  | .Succeeded => true
  | .Failed => true
  | .Blocked => true
  | .Skipped => true
  | _ => false

/-- Modelled from the spec: the dependency graph the Scheduler consumes —
node ids, locked-group membership, and each node's required-input
producers (the sources of edges into its required input handles). -/
structure SchedGraph where
  nodes : List String
  locked : String → Bool
  producers : String → List String

/-- Modelled from the spec (§4.2 step 2): the seeded initial state —
locked-group members start `Skipped`, nodes with no unresolved required
inputs start `Ready`, everything else starts `Pending`. -/
def initialExecState (g : SchedGraph) : String → ExecutionState :=
  fun n =>
    if g.locked n then .Skipped
    else if g.producers n = [] then .Ready
    else .Pending

/-- Modelled from the spec (§4.2 steps 3-5): one Scheduler transition.
A `Ready` node may be dispatched (`Running`); a `Running` node completes
as `Succeeded` or `Failed`; a `Pending` unlocked node whose required
producers have all `Succeeded` becomes `Ready`; a `Pending` node one of
whose required producers ended `Failed`/`Blocked`/`Skipped` becomes
`Blocked`. -/
inductive SchedStep (g : SchedGraph) :
    (String → ExecutionState) → (String → ExecutionState) → Prop where
  | dispatch (s : String → ExecutionState) (n : String)
      (h : s n = .Ready) :
      SchedStep g s (Function.update s n .Running)
  | succeed (s : String → ExecutionState) (n : String)
      (h : s n = .Running) :
      SchedStep g s (Function.update s n .Succeeded)
  | failNode (s : String → ExecutionState) (n : String)
      (h : s n = .Running) :
      SchedStep g s (Function.update s n .Failed)
  | markReady (s : String → ExecutionState) (n : String)
      (h : s n = .Pending) (hl : g.locked n = false)
      (hp : ∀ p ∈ g.producers n, s p = .Succeeded) :
      SchedStep g s (Function.update s n .Ready)
  | markBlocked (s : String → ExecutionState) (n : String)
      (h : s n = .Pending) (p : String) (hp : p ∈ g.producers n)
      (hterm : s p = .Failed ∨ s p = .Blocked ∨ s p = .Skipped) :
      SchedStep g s (Function.update s n .Blocked)

/-- The Scheduler's dependency invariant: every `Ready` or `Running`
node has all of its required-input producers `Succeeded`. -/
def SchedInv (g : SchedGraph) (s : String → ExecutionState) : Prop :=
  ∀ n, (s n = .Ready ∨ s n = .Running) → ∀ p ∈ g.producers n, s p = .Succeeded

/-- A two-node demonstration graph: `A` feeds the required input of `B`. -/
def demoGraph : SchedGraph where
  nodes := ["A", "B"]
  locked := fun _ => false
  producers := fun id => if id = "B" then ["A"] else []

/-- Demonstration trace state: `A` dispatched. -/
def demoS1 : String → ExecutionState :=
  Function.update (initialExecState demoGraph) "A" .Running

/-- Demonstration trace state: `A` succeeded. -/
def demoS2 : String → ExecutionState := Function.update demoS1 "A" .Succeeded

/-- Demonstration trace state: `B` marked ready. -/
def demoS3 : String → ExecutionState := Function.update demoS2 "B" .Ready

/-- Demonstration trace state: `B` dispatched. -/
def demoS4 : String → ExecutionState := Function.update demoS3 "B" .Running

/-! ## Theorems -/

/-- A truthy optional string is the underlying value, which is non-empty. -/
theorem jsTruthy_some {o : Option String} {k : String}
    (h : jsTruthy o = some k) : o = some k ∧ k ≠ "" := by
  cases o with
  | none => simp [jsTruthy] at h
  | some s =>
    by_cases hs : s = ""
    · simp [jsTruthy, hs] at h
    · simp [jsTruthy, hs] at h
      subst h
      exact ⟨rfl, hs⟩

/-- C10: `hashKeyForLogging` returns `"***"` for keys of fewer than 12
characters, and otherwise the key's first 8 characters, then `"..."`, then
its last 4 characters; for a key of length exactly 12 every character of
the key appears in the logged value. -/
theorem hashKeyForLogging_spec (key : List Char) :
    (key.length < 12 → hashKeyForLogging key = "***".toList) ∧
    (12 ≤ key.length →
      hashKeyForLogging key
        = key.take 8 ++ "...".toList ++ key.drop (key.length - 4)) ∧
    (key.length = 12 → ∀ c ∈ key, c ∈ hashKeyForLogging key) := by
  refine ⟨fun h => by simp [hashKeyForLogging, h], fun h => ?_, fun h c hc => ?_⟩
  · simp [hashKeyForLogging, Nat.not_lt.mpr h]
  · have hlt : ¬ key.length < 12 := by omega
    have hdrop : key.length - 4 = 8 := by omega
    rw [hashKeyForLogging, if_neg hlt, hdrop]
    rw [show key = key.take 8 ++ key.drop 8 from (List.take_append_drop 8 key).symm]
      at hc
    rcases List.mem_append.mp hc with h8 | h8
    · exact List.mem_append_left _ (List.mem_append_left _
        (by simpa using h8))
    · refine List.mem_append_right _ (by simpa using h8)

theorem hashKeyForLogging_spec_witness :
    ('l' ∈ hashKeyForLogging "abcdefghijkl".toList) ∧
    (hashKeyForLogging "short".toList = "***".toList) ∧
    (hashKeyForLogging "abcdefghijklm".toList
      = "abcdefghijklm".toList.take 8 ++ "...".toList
          ++ "abcdefghijklm".toList.drop 9) :=
  ⟨(hashKeyForLogging_spec "abcdefghijkl".toList).2.2 (by decide) 'l' (by decide),
   (hashKeyForLogging_spec "short".toList).1 (by decide),
   (hashKeyForLogging_spec "abcdefghijklm".toList).2.1 (by decide)⟩

/-- The accumulator form of `sanitizeHeadersForLogging`'s loop. -/
theorem sanitizeHeaders_foldl_eq (headers : List (String × String))
    (acc : List (String × String)) :
    headers.foldl
        (fun safe kv =>
          if toLowerString kv.1 ∈ SENSITIVE_HEADERS then safe else safe ++ [kv]) acc
      = acc ++ headers.filter (fun kv => toLowerString kv.1 ∉ SENSITIVE_HEADERS) := by
  induction headers generalizing acc with
  | nil => simp
  | cons kv rest ih =>
    by_cases h : toLowerString kv.1 ∈ SENSITIVE_HEADERS
    · simp [List.foldl_cons, h, ih]
    · simp [List.foldl_cons, h, ih]

/-- C9: `sanitizeHeadersForLogging` returns exactly the entries whose
lower-cased name is not in `SENSITIVE_HEADERS`, values unchanged; an entry
whose lower-cased name is sensitive (authorization or a provider API-key
header, in any letter case) never appears in the output. -/
theorem sanitizeHeadersForLogging_spec (headers : List (String × String)) :
    sanitizeHeadersForLogging headers
      = headers.filter (fun kv => toLowerString kv.1 ∉ SENSITIVE_HEADERS) ∧
    (∀ kv ∈ headers, toLowerString kv.1 ∈ SENSITIVE_HEADERS →
      kv ∉ sanitizeHeadersForLogging headers) := by
  have heq := sanitizeHeaders_foldl_eq headers []
  refine ⟨by simpa [sanitizeHeadersForLogging] using heq, fun kv _ hs hmem => ?_⟩
  rw [sanitizeHeadersForLogging, heq] at hmem
  simp at hmem
  exact hmem.2 hs

theorem sanitizeHeadersForLogging_spec_witness :
    sanitizeHeadersForLogging
        [("Authorization", "Bearer sk-secret"), ("Content-Type", "application/json"),
         ("X-Gemini-API-Key", "sk-gemini")]
      = [("Content-Type", "application/json")] ∧
    ("Authorization", "Bearer sk-secret") ∉ sanitizeHeadersForLogging
        [("Authorization", "Bearer sk-secret"), ("Content-Type", "application/json"),
         ("X-Gemini-API-Key", "sk-gemini")] := by
  constructor
  · rw [(sanitizeHeadersForLogging_spec _).1]
    decide
  · exact (sanitizeHeadersForLogging_spec _).2 ("Authorization", "Bearer sk-secret")
      (by decide) (by decide)

/-- Inside a still-active window (`every call time < resetTime` of the
stored entry), each call increments the count and keeps the window: the
results of a run are the counts `c+1, c+2, ...` against the limit. -/
theorem rlRun_active (identifier : String) (limit windowMs : Nat)
    (ts : List Nat) (c R : Nat) (store : RateLimitStore)
    (hst : store identifier = some ⟨c, R⟩)
    (hts : ∀ t ∈ ts, t < R) :
    (rlRun identifier limit windowMs ts store).1
      = (List.range ts.length).map
          (fun i => ⟨decide (c + 1 + i ≤ limit), limit - (c + 1 + i), R⟩) := by
  induction ts generalizing c store with
  | nil => simp [rlRun]
  | cons t ts ih =>
    have ht : t < R := hts t (by simp)
    have hstep : checkRateLimit identifier limit windowMs t store
        = (⟨decide (c + 1 ≤ limit), limit - (c + 1), R⟩,
           fun k => if k = identifier then some ⟨c + 1, R⟩ else store k) := by
      simp [checkRateLimit, hst, ht]
    have hrest := ih (c + 1)
      (fun k => if k = identifier then some ⟨c + 1, R⟩ else store k)
      (by simp) (fun t ht => hts t (by simp [ht]))
    have harith : ∀ i : Nat, c + 1 + (i + 1) = c + 1 + 1 + i := by omega
    simp only [rlRun, hstep, hrest, List.length_cons, List.range_succ_eq_map,
      List.map_cons, List.map_map, Function.comp]
    congr 1
    refine List.map_congr_left (fun i _ => ?_)
    simp only [Function.comp_apply]
    rw [show c + 1 + Nat.succ i = c + 1 + 1 + i from by omega]

/-- C8: for a fixed identifier and limit, starting from an empty store, a
run of calls all inside the first call's window admits call `i` (0-based)
exactly when `i + 1 ≤ limit`, with the window's `resetTime` unchanged;
once the stored `resetTime` is not in the future, the next call restarts
the count at 1 with a fresh window; and a denied result makes the
key-validation endpoint return the 429 rate-limit response. -/
theorem checkRateLimit_spec (identifier : String) (limit windowMs t0 : Nat)
    (ts : List Nat) (store0 : RateLimitStore)
    (h0 : store0 identifier = none)
    (hts : ∀ t ∈ ts, t < t0 + windowMs) :
    (∀ i r, (rlRun identifier limit windowMs (t0 :: ts) store0).1.get? i = some r →
        ((r.allowed = true) ↔ i + 1 ≤ limit) ∧ r.resetTime = t0 + windowMs) ∧
    (∀ now c rt st, st identifier = some ⟨c, rt⟩ → rt ≤ now →
        (checkRateLimit identifier limit windowMs now st).1
            = ⟨decide (1 ≤ limit), limit - 1, now + windowMs⟩ ∧
        (checkRateLimit identifier limit windowMs now st).2 identifier
            = some ⟨1, now + windowMs⟩) ∧
    (∀ r : RateLimitResult, r.allowed = false →
        validateKeyRateGate r = some createRateLimitResponse ∧
        createRateLimitResponse.status = 429) := by
  have hfirst : checkRateLimit identifier limit windowMs t0 store0
      = (⟨decide (1 ≤ limit), limit - 1, t0 + windowMs⟩,
         fun k => if k = identifier then some ⟨1, t0 + windowMs⟩ else store0 k) := by
    simp [checkRateLimit, h0]
  have hrest := rlRun_active identifier limit windowMs ts 1 (t0 + windowMs)
    (fun k => if k = identifier then some ⟨1, t0 + windowMs⟩ else store0 k)
    (by simp) hts
  have hlist : (rlRun identifier limit windowMs (t0 :: ts) store0).1
      = ⟨decide (1 ≤ limit), limit - 1, t0 + windowMs⟩
        :: (List.range ts.length).map
            (fun i => ⟨decide (1 + 1 + i ≤ limit), limit - (1 + 1 + i),
                       t0 + windowMs⟩) := by
    simp only [rlRun, hfirst, hrest]
  refine ⟨?_, ?_, ?_⟩
  · intro i r hr
    rw [hlist] at hr
    cases i with
    | zero =>
      simp only [List.get?_cons_zero, Option.some.injEq] at hr
      subst hr
      simp
    | succ i =>
      simp only [List.get?_cons_succ, List.get?_map] at hr
      cases hrange : (List.range ts.length).get? i with
      | none => rw [hrange] at hr; simp at hr
      | some j =>
        rw [hrange] at hr
        obtain ⟨hlt, hget⟩ := List.get?_eq_some.mp hrange
        rw [List.get_range] at hget
        subst hget
        simp only [Option.map_some'] at hr
        obtain rfl := Option.some.inj hr
        refine ⟨?_, rfl⟩
        simp only [decide_eq_true_eq]
        constructor <;> omega
  · intro now c rt st hst hrt
    have hnl : ¬ now < rt := Nat.not_lt.mpr hrt
    constructor <;> simp [checkRateLimit, hst, hnl]
  · intro r hr
    simp [validateKeyRateGate, hr, createRateLimitResponse]

theorem checkRateLimit_spec_witness :
    (rlRun "validate-key:client" VALIDATE_LIMIT RATE_LIMIT_WINDOW_MS
        [0, 1, 2, 3, 4, 5] (fun _ => none)).1.map (·.allowed)
      = [true, true, true, true, true, false] ∧
    ((false = true) ↔ 5 + 1 ≤ VALIDATE_LIMIT) ∧
    validateKeyRateGate ⟨false, 0, RATE_LIMIT_WINDOW_MS⟩
      = some createRateLimitResponse ∧
    createRateLimitResponse.status = 429 ∧
    (checkRateLimit "validate-key:client" VALIDATE_LIMIT RATE_LIMIT_WINDOW_MS
        60000 (fun k => if k = "validate-key:client" then some ⟨6, 60000⟩
                        else none)).1
      = ⟨decide (1 ≤ VALIDATE_LIMIT), VALIDATE_LIMIT - 1,
         60000 + RATE_LIMIT_WINDOW_MS⟩ := by
  have h := checkRateLimit_spec "validate-key:client" VALIDATE_LIMIT
    RATE_LIMIT_WINDOW_MS 0 [1, 2, 3, 4, 5] (fun _ => none) rfl (by decide)
  refine ⟨by decide, ?_, ?_, ?_, ?_⟩
  · exact (h.1 5 ⟨false, 0, RATE_LIMIT_WINDOW_MS⟩ (by decide)).1
  · exact (h.2.2 ⟨false, 0, RATE_LIMIT_WINDOW_MS⟩ rfl).1
  · exact (h.2.2 ⟨false, 0, RATE_LIMIT_WINDOW_MS⟩ rfl).2
  · exact (h.2.1 60000 6 60000
      (fun k => if k = "validate-key:client" then some ⟨6, 60000⟩ else none)
      (by decide) (Nat.le_refl _)).1

/-- C6 counterexample: a failing OpenAI dispatch whose backend error body
carries a detail message; the LLM route returns that raw backend message
verbatim to the caller in the 500 response, so the error returned past the
dispatch layer does include the raw backend error body. -/
theorem llmPOSTOpenAI_leaks_backend_error :
    llmPOSTOpenAI (some "sk-user-key") (fun _ => none)
        (fun _ => ⟨false, 500, some "raw backend error body: quota details", none⟩)
      = ⟨500, some "raw backend error body: quota details", none⟩ := by
  decide

/-- C6 (amended): `sanitizeErrorMessage` in production mode returns one of a
fixed set of five generic messages, independent of the backend-supplied
error detail. -/
theorem sanitizeErrorMessage_production_generic (message : String) :
    sanitizeErrorMessage message true ∈
      ["Configuration incomplete. Contact administrator.",
       "Authentication failed. Please verify your configuration.",
       "Too many requests. Please try again later.",
       "Service unavailable. Please try again later.",
       "Operation failed. Please try again later."] := by
  rw [sanitizeErrorMessage]
  repeat' split
  all_goals simp_all

/-- C5 counterexample: with a backend that answers 429 on the first two
attempts and succeeds on the third, the dispatch makes exactly one backend
call and fails with the rate-limit error — it does not retry and does not
return success after three calls. -/
theorem generateWithOpenAI_no_retry_counterexample :
    generateWithOpenAI (some "sk-user-key") (fun _ => none)
        (fun i => if i < 2 then ⟨false, 429, some "Rate limit exceeded", none⟩
                  else ⟨true, 200, none, some "ok text"⟩)
      = (.error "Rate limit exceeded", 1) ∧
    (generateWithOpenAI (some "sk-user-key") (fun _ => none)
        (fun i => if i < 2 then ⟨false, 429, some "Rate limit exceeded", none⟩
                  else ⟨true, 200, none, some "ok text"⟩)).2 ≠ 3 := by
  refine ⟨rfl, by decide⟩

/-- C5 (amended): the dispatch performs no retry at all — when the
credential resolves it makes exactly one backend call whatever the outcome
(and zero calls when the credential is missing), and a non-ok response
(429 included) yields an error after that single call. -/
theorem generateWithOpenAI_no_retry (userApiKey : Option String)
    (env : String → Option String) (backend : Nat → FetchResponse) :
    (generateWithOpenAI userApiKey env backend).2
      = (if (jsTruthy (jsOrOpt userApiKey (env "OPENAI_API_KEY"))).isSome
         then 1 else 0) ∧
    ((jsTruthy (jsOrOpt userApiKey (env "OPENAI_API_KEY"))).isSome →
      (backend 0).ok = false →
      (generateWithOpenAI userApiKey env backend).1
        = .error (jsOrDefault (backend 0).errMessage
            ("OpenAI API error: " ++ toString (backend 0).status))) := by
  rcases hk : jsTruthy (jsOrOpt userApiKey (env "OPENAI_API_KEY")) with _ | k
  · refine ⟨?_, ?_⟩
    · simp [generateWithOpenAI, hk]
    · intro hs
      simp [hk] at hs
  · refine ⟨?_, fun _ hko => ?_⟩
    · cases hok : (backend 0).ok with
      | false => simp [generateWithOpenAI, hk, hok]
      | true =>
        cases ht : (backend 0).text with
        | none => simp [generateWithOpenAI, hk, hok, ht]
        | some t => simp [generateWithOpenAI, hk, hok, ht]
    · simp [generateWithOpenAI, hk, hko]

theorem generateWithOpenAI_no_retry_witness :
    (generateWithOpenAI (some "sk-user-key") (fun _ => none)
        (fun _ => ⟨false, 503, none, none⟩)).2
      = (if (jsTruthy (jsOrOpt (some "sk-user-key")
             ((fun _ => none) "OPENAI_API_KEY"))).isSome then 1 else 0) ∧
    (generateWithOpenAI (some "sk-user-key") (fun _ => none)
        (fun _ => ⟨false, 503, none, none⟩)).1
      = .error (jsOrDefault (none : Option String)
          ("OpenAI API error: " ++ toString 503)) :=
  ⟨(generateWithOpenAI_no_retry (some "sk-user-key") (fun _ => none)
      (fun _ => ⟨false, 503, none, none⟩)).1,
   (generateWithOpenAI_no_retry (some "sk-user-key") (fun _ => none)
      (fun _ => ⟨false, 503, none, none⟩)).2 (by decide) rfl⟩

/-- C4 counterexample: an environment where the managed secret store path of
`getProviderSecret` resolves a Gemini key (via `SECRET_NAME_GEMINI`), the
per-request override is absent and `GEMINI_API_KEY` is unset. The dispatch
(`generateWithGoogle`) still fails with the missing-credential error and
makes no backend call: it never consults the secret store, so the claimed
"fails only when all sources are absent" does not hold. -/
theorem generateWithGoogle_ignores_secret_store :
    (getProviderSecret "gemini"
        (fun k => if k = "SECRET_NAME_GEMINI" then some "MY_SECRET"
                  else if k = "MY_SECRET" then some "sk-store-123" else none)
        (fun _ => none) (fun _ => none) 0).1
      = .ok (some "sk-store-123") ∧
    generateWithGoogle none
        (fun k => if k = "SECRET_NAME_GEMINI" then some "MY_SECRET"
                  else if k = "MY_SECRET" then some "sk-store-123" else none)
        (fun _ => some "generated text")
      = (.error "GEMINI_API_KEY not configured. Add it to .env.local or configure in Settings.",
         []) := by
  constructor <;> rfl

/-- C4 (amended): the dispatch resolves the credential as explicit
per-request override first, then the environment variable, and when both
are absent it fails with the missing-credential error before any backend
call; separately, `getProviderSecret` prefers the environment variable over
the secret-store lookup — but the dispatch path itself never consults the
secret store. -/
theorem generateWithGoogle_credential_precedence (userApiKey : Option String)
    (env : String → Option String) (backend : String → Option String) :
    (∀ k, jsTruthy userApiKey = some k →
        (generateWithGoogle userApiKey env backend).2 = [k]) ∧
    (jsTruthy userApiKey = none →
      ∀ k, jsTruthy (env "GEMINI_API_KEY") = some k →
        (generateWithGoogle userApiKey env backend).2 = [k]) ∧
    (jsTruthy userApiKey = none → jsTruthy (env "GEMINI_API_KEY") = none →
        generateWithGoogle userApiKey env backend
          = (.error "GEMINI_API_KEY not configured. Add it to .env.local or configure in Settings.",
             [])) ∧
    (∀ pid ek v aws cache now,
        (PROVIDER_ENV_MAP.find? (fun p => p.1 = pid)).map (·.2) = some ek →
        jsTruthy (env ek) = some v →
        (getProviderSecret pid env aws cache now).1 = .ok (some v)) := by
  refine ⟨fun k hk => ?_, fun hn k hk => ?_, fun hn he => ?_,
          fun pid ek v aws cache now hek hv => ?_⟩
  · obtain ⟨_, hne⟩ := jsTruthy_some hk
    have hres : jsTruthy (jsOrOpt userApiKey (env "GEMINI_API_KEY")) = some k := by
      rw [jsOrOpt, hk]
      simp [jsTruthy, hne]
    cases hb : backend k <;> simp [generateWithGoogle, hres, hb]
  · have hres : jsTruthy (jsOrOpt userApiKey (env "GEMINI_API_KEY")) = some k := by
      simp [jsOrOpt, hn, hk]
    cases hb : backend k <;> simp [generateWithGoogle, hres, hb]
  · have hres : jsTruthy (jsOrOpt userApiKey (env "GEMINI_API_KEY")) = none := by
      simp [jsOrOpt, hn, he]
    simp [generateWithGoogle, hres]
  · simp [getProviderSecret, hek, hv]

theorem generateWithGoogle_credential_precedence_witness :
    (generateWithGoogle (some "sk-override") (fun _ => some "sk-env")
        (fun _ => some "generated text")).2 = ["sk-override"] ∧
    (generateWithGoogle none
        (fun k => if k = "GEMINI_API_KEY" then some "sk-env" else none)
        (fun _ => some "generated text")).2 = ["sk-env"] ∧
    generateWithGoogle none (fun _ => none) (fun _ => some "generated text")
      = (.error "GEMINI_API_KEY not configured. Add it to .env.local or configure in Settings.",
         []) ∧
    (getProviderSecret "gemini"
        (fun k => if k = "GEMINI_API_KEY" then some "sk-env" else none)
        (fun _ => none) (fun _ => none) 0).1 = .ok (some "sk-env") := by
  have h1 := generateWithGoogle_credential_precedence (some "sk-override")
    (fun _ => some "sk-env") (fun _ => some "generated text")
  have h2 := generateWithGoogle_credential_precedence none
    (fun k => if k = "GEMINI_API_KEY" then some "sk-env" else none)
    (fun _ => some "generated text")
  have h3 := generateWithGoogle_credential_precedence none (fun _ => none)
    (fun _ => some "generated text")
  refine ⟨h1.1 "sk-override" rfl, h2.2.1 rfl "sk-env" (by decide),
          h3.2.2.1 rfl rfl, ?_⟩
  exact h2.2.2.2 "gemini" "GEMINI_API_KEY" "sk-env" (fun _ => none)
    (fun _ => none) 0 (by decide) (by decide)

/-- Updating a non-`Succeeded` node preserves the dependency invariant,
provided the new value, when `Ready`/`Running`, is justified. -/
theorem schedInv_update (g : SchedGraph) (s : String → ExecutionState)
    (n : String) (v : ExecutionState) (hInv : SchedInv g s)
    (hold : s n ≠ .Succeeded)
    (hnew : (v = .Ready ∨ v = .Running) → ∀ p ∈ g.producers n, s p = .Succeeded) :
    SchedInv g (Function.update s n v) := by
  intro m hm p hp
  by_cases hmn : m = n
  · rw [hmn, Function.update_same] at hm
    rw [hmn] at hp
    have hprod := hnew hm p hp
    by_cases hpn : p = n
    · rw [hpn] at hprod; exact absurd hprod hold
    · rw [Function.update_noteq hpn]; exact hprod
  · rw [Function.update_noteq hmn] at hm
    have hprod := hInv m hm p hp
    by_cases hpn : p = n
    · rw [hpn] at hprod; exact absurd hprod hold
    · rw [Function.update_noteq hpn]; exact hprod

/-- Each Scheduler transition preserves the dependency invariant. -/
theorem schedInv_preserved {g : SchedGraph} {s sNext : String → ExecutionState}
    (hInv : SchedInv g s) (hstep : SchedStep g s sNext) : SchedInv g sNext := by
  cases hstep with
  | dispatch n h =>
    exact schedInv_update g s n .Running hInv (by rw [h]; simp)
      (fun _ => hInv n (Or.inl h))
  | succeed n h =>
    exact schedInv_update g s n .Succeeded hInv (by rw [h]; simp)
      (fun hv => by rcases hv with hv | hv <;> simp at hv)
  | failNode n h =>
    exact schedInv_update g s n .Failed hInv (by rw [h]; simp)
      (fun hv => by rcases hv with hv | hv <;> simp at hv)
  | markReady n h hl hp =>
    exact schedInv_update g s n .Ready hInv (by rw [h]; simp) (fun _ => hp)
  | markBlocked n h p hp hterm =>
    exact schedInv_update g s n .Blocked hInv (by rw [h]; simp)
      (fun hv => by rcases hv with hv | hv <;> simp at hv)

/-- The seeded initial state satisfies the dependency invariant. -/
theorem schedInv_initial (g : SchedGraph) : SchedInv g (initialExecState g) := by
  intro n hm p hp
  unfold initialExecState at hm
  by_cases hl : g.locked n
  · simp [hl] at hm
  · by_cases hpr : g.producers n = []
    · rw [hpr] at hp; simp at hp
    · simp [hl, hpr] at hm

/-- The dependency invariant holds in every reachable Scheduler state. -/
theorem schedInv_reachable (g : SchedGraph) (s : String → ExecutionState)
    (h : Relation.ReflTransGen (SchedStep g) (initialExecState g) s) :
    SchedInv g s := by
  induction h with
  | refl => exact schedInv_initial g
  | tail _ hbc ih => exact schedInv_preserved ih hbc

/-- C7: in every run of the (spec-modelled) Scheduler, a node transitions
to `Running` only when all of its required-input producers have already
reached a terminal state — in fact `Succeeded` — so the dispatch sequence
is consistent with a topological order of the dependency graph. -/
theorem scheduler_dependency_order (g : SchedGraph)
    (s sNext : String → ExecutionState) (n : String)
    (hreach : Relation.ReflTransGen (SchedStep g) (initialExecState g) s)
    (hstep : SchedStep g s sNext)
    (hbefore : s n ≠ .Running) (hafter : sNext n = .Running) :
    ∀ p ∈ g.producers n, (s p).isTerminal = true ∧ s p = .Succeeded := by
  have hInv := schedInv_reachable g s hreach
  cases hstep with
  | dispatch m h =>
    by_cases hmn : n = m
    · subst hmn
      intro p hp
      have hsucc := hInv n (Or.inl h) p hp
      exact ⟨by rw [hsucc]; rfl, hsucc⟩
    · rw [Function.update_noteq hmn] at hafter
      exact absurd hafter hbefore
  | succeed m h =>
    by_cases hmn : n = m
    · subst hmn; rw [Function.update_same] at hafter; simp at hafter
    · rw [Function.update_noteq hmn] at hafter
      exact absurd hafter hbefore
  | failNode m h =>
    by_cases hmn : n = m
    · subst hmn; rw [Function.update_same] at hafter; simp at hafter
    · rw [Function.update_noteq hmn] at hafter
      exact absurd hafter hbefore
  | markReady m h hl hp =>
    by_cases hmn : n = m
    · subst hmn; rw [Function.update_same] at hafter; simp at hafter
    · rw [Function.update_noteq hmn] at hafter
      exact absurd hafter hbefore
  | markBlocked m h p hp hterm =>
    by_cases hmn : n = m
    · subst hmn; rw [Function.update_same] at hafter; simp at hafter
    · rw [Function.update_noteq hmn] at hafter
      exact absurd hafter hbefore

theorem scheduler_dependency_order_witness :
    (demoS3 "A").isTerminal = true ∧ demoS3 "A" = .Succeeded := by
  have hstep1 : SchedStep demoGraph (initialExecState demoGraph) demoS1 :=
    SchedStep.dispatch _ "A" (by simp [initialExecState, demoGraph])
  have hstep2 : SchedStep demoGraph demoS1 demoS2 :=
    SchedStep.succeed _ "A" (by simp [demoS1])
  have hstep3 : SchedStep demoGraph demoS2 demoS3 :=
    SchedStep.markReady _ "B" (by simp [demoS2, demoS1, initialExecState, demoGraph,
        Function.update])
      (by simp [demoGraph])
      (by intro p hp
          simp [demoGraph] at hp
          subst hp
          simp [demoS2, demoS1, Function.update])
  have hreach : Relation.ReflTransGen (SchedStep demoGraph)
      (initialExecState demoGraph) demoS3 :=
    Relation.ReflTransGen.tail
      (Relation.ReflTransGen.tail
        (Relation.ReflTransGen.tail Relation.ReflTransGen.refl hstep1) hstep2)
      hstep3
  have hstep4 : SchedStep demoGraph demoS3 demoS4 :=
    SchedStep.dispatch _ "B" (by simp [demoS3, Function.update])
  exact scheduler_dependency_order demoGraph demoS3 demoS4 "B" hreach hstep4
    (by simp [demoS3, Function.update])
    (by simp [demoS4, Function.update])
    "A" (by simp [demoGraph])

/-- C1: `buildWorkflowContext` returns exactly one `{id, type, title, model?}`
entry per input node — `title` is the node's custom title when a (non-empty)
one is set and otherwise the default derived from the node type — and
exactly one `{from, to, handleKind}` connection per input edge; a `model`
field is present only for the generation node types (`nanoBanana`,
`generateVideo`). -/
theorem buildWorkflowContext_spec (nodes : List WorkflowNode)
    (edges : List WorkflowEdge) :
    (buildWorkflowContext nodes edges).nodes.length = nodes.length ∧
    (buildWorkflowContext nodes edges).connections.length = edges.length ∧
    (∀ i n, nodes.get? i = some n → ∃ e : ContextNode,
        (buildWorkflowContext nodes edges).nodes.get? i = some e ∧
        e.id = n.id ∧ e.type = n.type ∧
        ((∃ t, n.data.customTitle = some t ∧ t ≠ "" ∧ e.title = t) ∨
         ((n.data.customTitle = none ∨ n.data.customTitle = some "") ∧
          e.title = generateNodeTitle n.type)) ∧
        (e.model ≠ none → n.type = "nanoBanana" ∨ n.type = "generateVideo")) ∧
    (∀ j ed, edges.get? j = some ed →
        (buildWorkflowContext nodes edges).connections.get? j
          = some ⟨ed.source, ed.target, jsOrDefault ed.sourceHandle "unknown"⟩) := by
  refine ⟨by simp [buildWorkflowContext], by simp [buildWorkflowContext],
          ?_, ?_⟩
  · intro i n hn
    have hget : (buildWorkflowContext nodes edges).nodes.get? i
        = some (nodeSummary n) := by
      simp only [buildWorkflowContext]
      rw [List.get?_map, hn, Option.map_some']
    refine ⟨nodeSummary n, hget, rfl, rfl, ?_, ?_⟩
    · cases hct : n.data.customTitle with
      | none =>
        exact Or.inr ⟨Or.inl rfl, by simp [nodeSummary, jsOrDefault, jsTruthy, hct]⟩
      | some t =>
        by_cases ht : t = ""
        · subst ht
          exact Or.inr ⟨Or.inr rfl, by simp [nodeSummary, jsOrDefault, jsTruthy, hct]⟩
        · exact Or.inl ⟨t, rfl, ht, by simp [nodeSummary, jsOrDefault, jsTruthy, hct, ht]⟩
    · intro hm
      by_cases hty : n.type = "nanoBanana" ∨ n.type = "generateVideo"
      · exact hty
      · exact absurd (by simp [nodeSummary, hty, jsTruthy]) hm
  · intro j ed hj
    simp only [buildWorkflowContext]
    rw [List.get?_map, hj, Option.map_some']
    rfl

theorem buildWorkflowContext_spec_witness :
    (buildWorkflowContext
        [⟨"n1", "nanoBanana",
          ⟨some "My Title", some ⟨"Nano Banana Pro"⟩, some "iVBORbase64", ["h"],
           some "state"⟩⟩]
        [⟨"e1", "n1", "n2", some "image"⟩]).nodes.length = 1 ∧
    (buildWorkflowContext
        [⟨"n1", "nanoBanana",
          ⟨some "My Title", some ⟨"Nano Banana Pro"⟩, some "iVBORbase64", ["h"],
           some "state"⟩⟩]
        [⟨"e1", "n1", "n2", some "image"⟩]).connections.get? 0
      = some ⟨"n1", "n2", jsOrDefault (some "image") "unknown"⟩ ∧
    (buildWorkflowContext
        [⟨"n1", "nanoBanana",
          ⟨some "My Title", some ⟨"Nano Banana Pro"⟩, some "iVBORbase64", ["h"],
           some "state"⟩⟩]
        [⟨"e1", "n1", "n2", some "image"⟩]).nodes.get? 0 ≠ none := by
  have h := buildWorkflowContext_spec
    [⟨"n1", "nanoBanana",
      ⟨some "My Title", some ⟨"Nano Banana Pro"⟩, some "iVBORbase64", ["h"],
       some "state"⟩⟩]
    [⟨"e1", "n1", "n2", some "image"⟩]
  refine ⟨h.1.trans rfl, h.2.2.2 0 ⟨"e1", "n1", "n2", some "image"⟩ rfl, ?_⟩
  obtain ⟨e, he, -⟩ := h.2.2.1 0 _ rfl
  rw [he]
  simp

/-- C2: `buildWorkflowContext` depends only on each node's id, type, custom
title and selected model: two node lists that agree pointwise on those
fields — whatever their binary payload fields (base64 image data, history
arrays, internal state) hold — produce the same summary, so no payload
value appears in the output. -/
theorem buildWorkflowContext_noninterference (ns1 ns2 : List WorkflowNode)
    (edges : List WorkflowEdge)
    (h : List.Forall₂ (fun a b => a.id = b.id ∧ a.type = b.type ∧
           a.data.customTitle = b.data.customTitle ∧
           a.data.selectedModel = b.data.selectedModel) ns1 ns2) :
    buildWorkflowContext ns1 edges = buildWorkflowContext ns2 edges := by
  have hmap : List.map nodeSummary ns1 = List.map nodeSummary ns2 := by
    induction h with
    | nil => rfl
    | cons hab htail ih =>
      obtain ⟨h1, h2, h3, h4⟩ := hab
      simp only [List.map_cons, ih, List.cons.injEq]
      refine ⟨?_, trivial⟩
      simp only [nodeSummary, h1, h2, h3, h4]
  have hlen : ns1.length = ns2.length := h.length_eq
  simp only [buildWorkflowContext, hlen, hmap]

theorem buildWorkflowContext_noninterference_witness :
    buildWorkflowContext
        [⟨"n1", "nanoBanana",
          ⟨some "T", some ⟨"M"⟩, some "AAAAbase64", ["prompt one"], some "st"⟩⟩]
        []
      = buildWorkflowContext
        [⟨"n1", "nanoBanana", ⟨some "T", some ⟨"M"⟩, none, [], none⟩⟩] [] :=
  buildWorkflowContext_noninterference _ _ []
    (List.Forall₂.cons ⟨rfl, rfl, rfl, rfl⟩ List.Forall₂.nil)

/-- C3: `extractSubgraph` with an empty selection returns the whole graph
unscoped (`isScoped = false`, `restSummary = null`, all nodes and edges
selected); with every node id selected (nonempty graph, edges referencing
existing nodes) the rest summary counts zero nodes and lists no boundary
connections. -/
theorem extractSubgraph_spec (nodes : List WorkflowNode)
    (edges : List WorkflowEdge) :
    extractSubgraph nodes edges [] = ⟨nodes, edges, none, false⟩ ∧
    (nodes ≠ [] →
      (∀ e ∈ edges, e.source ∈ nodes.map (·.id) ∧ e.target ∈ nodes.map (·.id)) →
      ∃ r : RestSummary,
        (extractSubgraph nodes edges (nodes.map (·.id))).restSummary = some r ∧
        r.nodeCount = 0 ∧ r.boundaryConnections = []) := by
  constructor
  · simp [extractSubgraph]
  · intro hne hend
    have hisem : (nodes.map (·.id)).isEmpty = false := by
      cases nodes with
      | nil => exact absurd rfl hne
      | cons a l => rfl
    have hrest : nodes.filter
        (fun n => !((nodes.map (·.id)).contains n.id)) = [] := by
      rw [List.filter_eq_nil]
      intro n hn
      simp only [Bool.not_eq_true', Bool.not_not]
      have hmem : n.id ∈ nodes.map (·.id) := List.mem_map.mpr ⟨n, hn, rfl⟩
      have hc : (nodes.map (·.id)).contains n.id = true := List.elem_iff.mpr hmem
      simp [hc]
      exact ⟨n, hn, rfl⟩
    have hbc : edges.filterMap (fun e =>
        if ((nodes.map (·.id)).contains e.source
            && !((nodes.map (·.id)).contains e.target)) then
          some { direction := "outgoing", selectedNodeId := e.source,
                 otherNodeId := e.target,
                 handleType := jsOrDefault e.sourceHandle "unknown" :
                 BoundaryConnection }
        else if (!((nodes.map (·.id)).contains e.source)
            && ((nodes.map (·.id)).contains e.target)) then
          some { direction := "incoming", selectedNodeId := e.target,
                 otherNodeId := e.source,
                 handleType := jsOrDefault e.sourceHandle "unknown" :
                 BoundaryConnection }
        else none) = [] := by
      rw [List.filterMap_eq_nil]
      intro e he
      obtain ⟨hs, ht⟩ := hend e he
      have hs' : (nodes.map (·.id)).contains e.source = true :=
        List.elem_iff.mpr hs
      have ht' : (nodes.map (·.id)).contains e.target = true :=
        List.elem_iff.mpr ht
      rw [hs', ht']
      simp
    have hout : (extractSubgraph nodes edges (nodes.map (·.id))).restSummary
        = some ⟨0, [], []⟩ := by
      simp only [extractSubgraph, hisem, Bool.false_eq_true, if_false]
      rw [hrest, hbc]
      simp
    exact ⟨⟨0, [], []⟩, hout, rfl, rfl⟩

theorem extractSubgraph_spec_witness :
    extractSubgraph demoWfNodes demoWfEdges []
      = ⟨demoWfNodes, demoWfEdges, none, false⟩ ∧
    (extractSubgraph demoWfNodes demoWfEdges
        (demoWfNodes.map (·.id))).restSummary ≠ none := by
  have h := extractSubgraph_spec demoWfNodes demoWfEdges
  refine ⟨h.1, ?_⟩
  obtain ⟨r, hr, -, -⟩ := h.2 (by decide) (by decide)
  rw [hr]
  simp
